import Mathlib

/-!
Verification development for the sdl-ogc-keyboard on-screen keyboard
(src/src/keyboard.c, src/src/config.c, src/src/config.h).

The C sources are shallowly embedded below: machine integers become `Int`
(with explicit `% 256` / `% 65536` where a C narrowing conversion matters),
fixed C arrays become `List`s accessed with `getD`/`get?` (an out-of-bounds
C access is undefined behaviour, so any total value is a faithful model on
the defined range), and the mutable `SDL_OGC_DriverData` struct becomes an
explicit `DriverData` record threaded through the handler functions.
Host callbacks (`SDL_OGC_SendKeyboardText`, `SDL_OGC_SendVirtualKeyboardKey`)
are modelled as an emitted list of `HostCall` values.
-/

namespace OgcKbd

/-! ## Configuration constants (config.h, keyboard.c) -/

def NUM_ROWS : Nat := 5

def NUM_LAYOUTS : Nat := 4

def MAX_BUTTONS_PER_ROW : Nat := 10

def MAX_INPUT_LEN : Nat := 128

def ROW_HEIGHT : Int := 40

def ROW_SPACING : Int := 12

def KEYBOARD_HEIGHT : Int := (NUM_ROWS : Int) * (ROW_HEIGHT + ROW_SPACING)

def TEX_FORMAT_VERSION : Int := 1

def INPUTBOX_SIDE_MARGIN : Int := 50

def INPUTBOX_SIDE_PADDING : Int := 2

def INPUT_CURSOR_WIDTH : Int := 4

def ANIMATION_TIME_EXIT : Int := 500

/-! ## Key symbols

The C code stores keys as `const char *` and recognises the functional
keycaps (KEYCAP_BACKSPACE, KEYCAP_SHIFT, ...) by pointer identity: the
symbol tables in config.c reference the very arrays declared in config.c,
so a literal string never compares equal to a functional keycap.  This is
modelled by a tagged type where the functional keycaps are their own
constructors and every other symbol is `lit s`. -/

inductive KeySym where
  | lit : String → KeySym
  | backspace : KeySym
  | shift : KeySym
  | sym1 : KeySym
  | sym2 : KeySym
  | symbols : KeySym
  | abc : KeySym
  | ret : KeySym
  deriving DecidableEq

/-! ## Layout table (config.c) -/

structure ButtonRow where
  start_x : Int
  spacing : Int
  num_keys : Nat
  special_keys_bitmask : Nat
  enter_key_bitmask : Nat
  widths : List Nat
  layouts : List (List KeySym)
  deriving DecidableEq

def s_widths_10 : List Nat := [26, 26, 26, 26, 26, 26, 26, 26, 26, 26]

def s_widths_7_2 : List Nat := [42, 26, 26, 26, 26, 26, 26, 26, 42]

def s_widths_bar : List Nat := [42, 26, 122, 26, 74]

def row0syms : List KeySym :=
  [.lit "1", .lit "2", .lit "3", .lit "4", .lit "5",
   .lit "6", .lit "7", .lit "8", .lit "9", .lit "0"]

def row0syms2 : List KeySym :=
  [.lit "~", .lit "@", .lit "#", .lit "$", .lit "%",
   .lit "^", .lit "&", .lit "*", .lit "(", .lit ")"]

def row0 : ButtonRow :=
  { start_x := 6, spacing := 12, num_keys := 10,
    special_keys_bitmask := 0x0, enter_key_bitmask := 0x0,
    widths := s_widths_10,
    layouts := [row0syms, row0syms, row0syms2, row0syms2] }

def row1syms0 : List KeySym :=
  [.lit "q", .lit "w", .lit "e", .lit "r", .lit "t",
   .lit "y", .lit "u", .lit "i", .lit "o", .lit "p"]

def row1syms1 : List KeySym :=
  [.lit "Q", .lit "W", .lit "E", .lit "R", .lit "T",
   .lit "Y", .lit "U", .lit "I", .lit "O", .lit "P"]

def row1syms2 : List KeySym :=
  [.lit "\\", .lit "/", .lit "€", .lit "¢", .lit "=",
   .lit "-", .lit "_", .lit "+", .lit "[", .lit "]"]

def row1syms3 : List KeySym :=
  [.lit "©", .lit "®", .lit "£", .lit "µ", .lit "¥",
   .lit "№", .lit "°", .lit "★", .lit "☞", .lit "☜"]

def row1 : ButtonRow :=
  { start_x := 6, spacing := 12, num_keys := 10,
    special_keys_bitmask := 0x0, enter_key_bitmask := 0x0,
    widths := s_widths_10,
    layouts := [row1syms0, row1syms1, row1syms2, row1syms3] }

def row2syms0 : List KeySym :=
  [.lit "a", .lit "s", .lit "d", .lit "f", .lit "g",
   .lit "h", .lit "j", .lit "k", .lit "l"]

def row2syms1 : List KeySym :=
  [.lit "A", .lit "S", .lit "D", .lit "F", .lit "G",
   .lit "H", .lit "J", .lit "K", .lit "L"]

def row2syms2 : List KeySym :=
  [.lit "<", .lit ">", .lit "¿", .lit "¡", .lit "—",
   .lit "´", .lit "|", .lit "\x7B", .lit "\x7D"]

def row2syms3 : List KeySym :=
  [.lit "«", .lit "»", .lit "☺", .lit "☹", .lit "😀",
   .lit "😉", .lit "😢", .lit "😇", .lit "😈"]

def row2 : ButtonRow :=
  { start_x := 38, spacing := 12, num_keys := 9,
    special_keys_bitmask := 0x0, enter_key_bitmask := 0x0,
    widths := s_widths_10,
    layouts := [row2syms0, row2syms1, row2syms2, row2syms3] }

def row3syms0 : List KeySym :=
  [.shift, .lit "z", .lit "x", .lit "c", .lit "v",
   .lit "b", .lit "n", .lit "m", .backspace]

def row3syms1 : List KeySym :=
  [.shift, .lit "Z", .lit "X", .lit "C", .lit "V",
   .lit "B", .lit "N", .lit "M", .backspace]

def row3syms2 : List KeySym :=
  [.sym1, .lit "`", .lit "\"", .lit "'", .lit ":",
   .lit ";", .lit "!", .lit "?", .backspace]

def row3syms3 : List KeySym :=
  [.sym2, .lit "⚠", .lit "§", .lit "±", .lit "♂",
   .lit "♀", .lit "☀", .lit "☾", .backspace]

def row3 : ButtonRow :=
  { start_x := 6, spacing := 12, num_keys := 9,
    special_keys_bitmask := 0x101, enter_key_bitmask := 0x0,
    widths := s_widths_7_2,
    layouts := [row3syms0, row3syms1, row3syms2, row3syms3] }

def row4syms0 : List KeySym :=
  [.symbols, .lit ",", .lit " ", .lit ".", .ret]

def row4syms2 : List KeySym :=
  [.abc, .lit ",", .lit " ", .lit ".", .ret]

def row4 : ButtonRow :=
  { start_x := 6, spacing := 12, num_keys := 5,
    special_keys_bitmask := 0x1, enter_key_bitmask := 0x10,
    widths := s_widths_bar,
    layouts := [row4syms0, row4syms0, row4syms2, row4syms2] }

def rows : List ButtonRow := [row0, row1, row2, row3, row4]

/-- `rows[r]` of the C code.  Indexing past `NUM_ROWS` is undefined
behaviour in C; the model totalizes it with `row0`. -/
def rowAt (r : Nat) : ButtonRow := rows.getD r row0

/-- `br->widths[c]`; out-of-range access is C undefined behaviour,
totalized with 0. -/
def widthAt (br : ButtonRow) (c : Nat) : Nat := br.widths.getD c 0

/-! ## KeyID codec (keyboard.c, key_id_from_pos / key_id_to_pos)

`KeyID` is `uint8_t`, so the result of `key_id_from_pos` is reduced
modulo 256 (the implicit C narrowing conversion). -/

def key_id_from_pos (layout_index row col : Nat) : Nat :=
  (layout_index * (NUM_ROWS * MAX_BUTTONS_PER_ROW) +
    row * MAX_BUTTONS_PER_ROW + col) % 256

/-- Returns `(layout_index, row, col)`, matching the three out-parameters
of the C function. -/
def key_id_to_pos (key_id : Nat) : Nat × Nat × Nat :=
  let col := key_id % MAX_BUTTONS_PER_ROW
  let k := key_id / MAX_BUTTONS_PER_ROW
  let row := k % NUM_ROWS
  let layout_index := k / NUM_ROWS
  (layout_index, row, col)

/-! ## Symbol resolution (keyboard.c, text_by_pos_and_layout)

The C function returns `layout->symbols ? layout->symbols[col] : NULL`;
in config.c every layout has a symbol table, so only the in-bounds indexed
read matters.  An out-of-bounds `col` would be C undefined behaviour,
modelled as `none` (as is a missing symbol table). -/

def text_by_pos_and_layout (row col layout_index : Nat) : Option KeySym :=
  ((rowAt row).layouts.getD layout_index []).get? col

/-! ## Glyph atlas textures (keyboard.c, TextureData / load_texture /
lookup_layout_texture)

`TextureData.texels` is the `void *texels` pointer: `none` models NULL
(the zero state after `memset`/`calloc`), `some bytes` models an allocated
buffer holding the bytes that were read into it.  An `osk<i>.tex` file is
modelled structurally: the fixed-layout header fields followed by the
texel payload of whatever length the file actually has (modelling
truncation).  `fopen` failure is modelled by the file being `none`;
`memalign` is modelled as always succeeding (its failure path also
returns 0 with `texels` past that point never assigned). -/

structure TextureData where
  width : Int
  height : Int
  key_widths : List (List Nat)
  key_height : Nat
  texels : Option (List Nat)
  deriving DecidableEq

/-- The all-zero `TextureData` produced by `memset`/`calloc`. -/
def emptyTexture : TextureData :=
  { width := 0, height := 0,
    key_widths := List.replicate NUM_ROWS (List.replicate MAX_BUTTONS_PER_ROW 0),
    key_height := 0, texels := none }

structure TexFile where
  version : Int
  width : Int
  height : Int
  key_widths : List (List Nat)
  key_height : Nat
  payload : List Nat
  deriving DecidableEq

/-- `GX_GetTexBufferSize(width, height, GX_TF_I4, GX_FALSE, 0)`: the I4
format uses 8×8-texel blocks of 32 bytes; the `u16` parameters make the
int16 width/height wrap modulo 2^16. -/
def gxTexBufferSize (w h : Int) : Nat :=
  let wu := (w % 65536).toNat
  let hu := (h % 65536).toNat
  ((wu + 7) / 8) * ((hu + 7) / 8) * 32

/-- `load_texture`: returns the C function's int result as `Bool` together
with the texture struct it mutated in place.  Note that on the short-read
path the struct has already received the header fields and the allocated
`texels` buffer before the size check fails. -/
def load_texture (file : Option TexFile) (texture : TextureData) :
    Bool × TextureData :=
  match file with
  | none => (false, texture)
  | some f =>
    if f.version ≠ TEX_FORMAT_VERSION then (false, texture)
    else
      let texture := { texture with
        width := f.width, height := f.height,
        key_widths := f.key_widths, key_height := f.key_height }
      let texture_size := gxTexBufferSize texture.width texture.height
      let rc := (f.payload.take texture_size).length
      let texture := { texture with texels := some (f.payload.take texture_size) }
      (rc = texture_size, texture)

/-! ## Driver state (keyboard.c, SDL_OGC_DriverData)

`context->screen_pan_y` lives in the host context but is read and written
only through the keyboard code modelled here, so it is folded into the
record.  `text` models the `text[MAX_INPUT_LEN]` array together with
`text_len`: the list holds exactly the first `text_len` key IDs.
Fields the modelled functions never touch (cursors, key_color) are
omitted.  `SDL_GetTicks()` is passed explicitly as a `ticks` argument to
every function that calls it. -/

structure DriverData where
  screen_width : Int
  screen_height : Int
  start_pan_y : Int
  target_pan_y : Int
  screen_pan_y : Int
  input_panel_visible_height : Int
  input_panel_start_visible_height : Int
  input_panel_target_visible_height : Int
  input_cursor_x : Int
  input_scroll_x : Int
  focus_row : Int
  focus_col : Int
  highlight_row : Int
  highlight_col : Int
  active_layout : Int
  text : List Nat
  should_stop_text_input : Bool
  visible_height : Int
  input_cursor_start_ticks : Nat
  start_ticks : Nat
  start_visible_height : Int
  target_visible_height : Int
  animation_time : Int
  layout_textures : List TextureData
  deriving DecidableEq

/-- The texture slot `data->layout_textures[i]` (UB out of range,
totalized with `emptyTexture`). -/
def texSlot (d : DriverData) (i : Nat) : TextureData :=
  d.layout_textures.getD i emptyTexture

/-- `lookup_layout_texture`: lazily loads the texture for a layout level
from the file system `files` (indexed by layout level, modelling the
`osk<i>.tex` file names).  The C function mutates the slot in place
through a pointer, so the state update persists even when loading fails. -/
def lookup_layout_texture (files : Nat → Option TexFile) (d : DriverData)
    (layout_index : Nat) : Option TextureData × DriverData :=
  let texture := texSlot d layout_index
  if texture.texels = none then
    let res := load_texture (files layout_index) texture
    let d := { d with layout_textures := d.layout_textures.set layout_index res.2 }
    if res.1 then (some res.2, d) else (none, d)
  else
    (some texture, d)

/-- `texture->key_widths[row][col]` (in-bounds for every decoded KeyID
since the array is `NUM_ROWS × MAX_BUTTONS_PER_ROW`). -/
def glyphWidth (t : TextureData) (row col : Nat) : Nat :=
  (t.key_widths.getD row []).getD col 0

/-! ## Host calls

The runtime core calls back into the host through
`SDL_OGC_SendKeyboardText` (a resolved symbol, possibly NULL) and
`SDL_OGC_SendVirtualKeyboardKey` (a pressed scancode).  Handlers below
return the list of calls they emit, in order. -/

inductive HostCall where
  | sendText : Option KeySym → HostCall
  | sendKey : Nat → HostCall
  deriving DecidableEq

def SDL_SCANCODE_BACKSPACE : Nat := 42

def SDL_SCANCODE_RETURN : Nat := 40

/-! ## State operations (keyboard.c) -/

/-- `text_by_pos`: resolution at the currently active layout level.
`active_layout` is an `int8_t` that only ever holds 0..3; a negative
value would be UB at the array access, totalized via `toNat`. -/
def text_by_pos (d : DriverData) (row col : Nat) : Option KeySym :=
  text_by_pos_and_layout row col d.active_layout.toNat

/-- `HideScreenKeyboard` (ticks = the `SDL_GetTicks()` it calls). -/
def HideScreenKeyboard (ticks : Nat) (d : DriverData) : DriverData :=
  { d with
    start_ticks := ticks,
    start_visible_height := d.visible_height,
    target_visible_height := 0,
    input_panel_start_visible_height := d.input_panel_visible_height,
    input_panel_target_visible_height := 0,
    start_pan_y := d.screen_pan_y,
    target_pan_y := 0,
    animation_time := ANIMATION_TIME_EXIT }

/-- The resolution a buffered KeyID receives in `send_input_text` /
`draw_input_text`: decode, then look the symbol up in the entry's own
recorded layout level. -/
def resolveKeyId (id : Nat) : Option KeySym :=
  let (layout_index, row, col) := key_id_to_pos id
  text_by_pos_and_layout row col layout_index

/-- `send_input_text`: replays the whole buffer to the host, then flags
text-input termination and starts the hide transition. -/
def send_input_text (ticks : Nat) (d : DriverData) :
    DriverData × List HostCall :=
  let calls := d.text.map (fun id => HostCall.sendText (resolveKeyId id))
  let d := { d with should_stop_text_input := true }
  (HideScreenKeyboard ticks d, calls)

/-- The `for` loop of `update_input_cursor`.  State mirrors the C locals:
`last` is `last_layout_index` (starts at -1), `tex` is the `texture`
local (uninitialized until the first successful lookup; it is only read
after `last` has been set by a successful lookup, so the `none` fallback
of 0 is unreachable), `x` the accumulated width.  A failed lookup
`continue`s without accumulating. -/
def cursor_loop (files : Nat → Option TexFile) :
    List Nat → DriverData → Int → Option TextureData → Int → DriverData × Int
  | [], d, _, _, x => (d, x)
  | id :: restIds, d, last, tex, x =>
    let layout_index := (key_id_to_pos id).1
    let row := (key_id_to_pos id).2.1
    let col := (key_id_to_pos id).2.2
    if (layout_index : Int) ≠ last then
      let res := lookup_layout_texture files d layout_index
      match res.1 with
      | none => cursor_loop files restIds res.2 last tex x
      | some t =>
        cursor_loop files restIds res.2 (layout_index : Int) (some t)
          (x + (glyphWidth t row col : Int))
    else
      cursor_loop files restIds d last tex
        (x + (match tex with
              | some t => (glyphWidth t row col : Int)
              | none => 0))

/-- `update_input_cursor`. -/
def update_input_cursor (files : Nat → Option TexFile) (ticks : Nat)
    (d : DriverData) : DriverData :=
  let max_x := d.screen_width -
    (INPUTBOX_SIDE_MARGIN + INPUTBOX_SIDE_PADDING) * 2 - INPUT_CURSOR_WIDTH
  let res := cursor_loop files d.text d (-1) none 0
  let d := res.1
  let x := res.2
  let d :=
    if x < d.input_scroll_x then { d with input_scroll_x := x }
    else if x > max_x then { d with input_scroll_x := x - max_x }
    else { d with input_scroll_x := 0 }
  { d with input_cursor_x := x, input_cursor_start_ticks := ticks }

def switch_layout (d : DriverData) (level : Int) : DriverData :=
  { d with active_layout := level }

def activate_mouse (d : DriverData) : DriverData :=
  { d with focus_row := -1 }

/-- `rows[r]->num_keys` as an `Int`, for comparisons against the
`int8_t` focus fields. -/
def numKeysI (r : Int) : Int := ((rowAt r.toNat).num_keys : Int)

def activate_joypad (d : DriverData) : DriverData :=
  let d :=
    if d.focus_row < 0 then
      { d with focus_row := 2, focus_col := numKeysI 2 / 2 }
    else d
  { d with highlight_row := -1 }

/-- The C `!` operator on `data->active_layout`. -/
def cBoolNot (x : Int) : Int := if x = 0 then 1 else 0

/-- `activate_key`: the chain of pointer-identity comparisons against the
functional keycaps, modelled as tag comparisons (a NULL resolution falls
through to the final `else`, exactly as a NULL pointer does in C). -/
def activate_key (files : Nat → Option TexFile) (ticks : Nat)
    (d : DriverData) (row col : Nat) : DriverData × List HostCall :=
  let text := text_by_pos d row col
  let has_input_box := d.input_panel_visible_height > 0
  if text = some .backspace then
    if has_input_box then
      let d := if d.text.length > 0 then { d with text := d.text.dropLast } else d
      (update_input_cursor files ticks d, [])
    else
      (d, [.sendKey SDL_SCANCODE_BACKSPACE])
  else if text = some .ret then
    if has_input_box then
      send_input_text ticks d
    else
      (d, [.sendKey SDL_SCANCODE_RETURN])
  else if text = some .abc then
    (switch_layout d 0, [])
  else if text = some .shift then
    (switch_layout d (cBoolNot d.active_layout), [])
  else if text = some .symbols ∨ text = some .sym2 then
    (switch_layout d 2, [])
  else if text = some .sym1 then
    (switch_layout d 3, [])
  else
    if has_input_box then
      if d.text.length < MAX_INPUT_LEN then
        let key := key_id_from_pos d.active_layout.toNat row col
        let d := { d with text := d.text ++ [key] }
        (update_input_cursor files ticks d, [])
      else
        (d, [])
    else
      (d, [.sendText text])

/-- Inner column scan of `key_at` for one row: `remaining` counts down
from `num_keys`, `x` is the accumulated left edge.  The hit test is
strict on both sides (`px > x && px < x + w*2`). -/
def key_at_cols (br : ButtonRow) (px : Int) :
    Nat → Nat → Int → Option Nat
  | 0, _, _ => none
  | remaining + 1, col, x =>
    if px > x ∧ px < x + (widthAt br col : Int) * 2 then some col
    else key_at_cols br px remaining (col + 1)
      (x + (widthAt br col : Int) * 2 + br.spacing)

/-- Row loop of `key_at`: rows are scanned top to bottom; `py < y`
breaks out of the loop, `py >= y + ROW_HEIGHT` continues to the next
row. -/
def key_at_rows (px py start_y : Int) : Nat → Nat → Option (Nat × Nat)
  | 0, _ => none
  | remaining + 1, row =>
    let br := rowAt row
    let y := start_y + (ROW_HEIGHT + ROW_SPACING) * row
    if py < y then none
    else if py ≥ y + ROW_HEIGHT then key_at_rows px py start_y remaining (row + 1)
    else
      match key_at_cols br px br.num_keys 0 br.start_x with
      | some col => some (row, col)
      | none => key_at_rows px py start_y remaining (row + 1)

/-- `key_at`: returns `some (row, col)` where C returns 1 and fills the
out-parameters, `none` where it returns 0. -/
def key_at (d : DriverData) (px py : Int) : Option (Nat × Nat) :=
  let start_y := d.screen_height - d.visible_height + 5
  key_at_rows px py start_y NUM_ROWS 0

/-- `handle_click`.  Note the early return: a click arriving while the
focus is set (pad mode) is ignored entirely. -/
def handle_click (files : Nat → Option TexFile) (ticks : Nat)
    (d : DriverData) (px py : Int) : DriverData × List HostCall :=
  if d.focus_row ≥ 0 then (d, [])
  else
    let has_input_box := d.input_panel_visible_height > 0
    if ¬has_input_box ∧ py < d.screen_height - KEYBOARD_HEIGHT then
      (HideScreenKeyboard ticks { d with should_stop_text_input := true }, [])
    else
      match key_at d px py with
      | some (row, col) => activate_key files ticks d row col
      | none => (d, [])

/-- `handle_motion` (the `WPAD_Rumble` calls are hardware side effects
with no bearing on the modelled state and are dropped). -/
def handle_motion (d : DriverData) (px py : Int) : DriverData :=
  let d := activate_mouse d
  match key_at d px py with
  | some (row, col) =>
    if d.highlight_row ≠ (row : Int) ∨ d.highlight_col ≠ (col : Int) then
      { d with highlight_row := (row : Int), highlight_col := (col : Int) }
    else d
  | none => { d with highlight_row := -1 }

def move_right (d : DriverData) : DriverData :=
  let c := d.focus_col + 1
  let c := if c ≥ numKeysI d.focus_row then 0 else c
  { d with focus_col := c }

def move_left (d : DriverData) : DriverData :=
  let c := d.focus_col - 1
  let c := if c < 0 then numKeysI d.focus_row - 1 else c
  { d with focus_col := c }

/-- Scan loop in the second half of `adjust_column`: find the first
column of the destination row whose left edge `x` exceeds `oldx`;
`remaining` counts down from `num_keys` with `col` counting up, and the
fall-through return is `col - 1` (i.e. `num_keys - 1`). -/
def adjust_scan (br : ButtonRow) (oldx : Int) :
    Nat → Nat → Int → Nat
  | 0, col, _ => col - 1
  | remaining + 1, col, x =>
    if x > oldx then (if col > 0 then col - 1 else col)
    else adjust_scan br oldx remaining (col + 1)
      (x + (widthAt br col : Int) * 2 + br.spacing)

/-- Accumulated x of the first `col` keys of the first half of
`adjust_column`. -/
def accum_x (br : ButtonRow) : Nat → Int
  | 0 => br.start_x
  | col + 1 => accum_x br col + (widthAt br col : Int) * 2 + br.spacing

/-- `adjust_column` on the non-negative values its callers pass (the C
parameters are `int`; a negative row index would be UB). -/
def adjust_columnN (row oldrow oldcol : Nat) : Nat :=
  let br := rowAt oldrow
  let oldx := accum_x br oldcol + (widthAt br oldcol : Int)
  let br := rowAt row
  adjust_scan br oldx br.num_keys 0 br.start_x

def adjust_column (row oldrow oldcol : Int) : Int :=
  (adjust_columnN row.toNat oldrow.toNat oldcol.toNat : Int)

def move_up (d : DriverData) : DriverData :=
  let oldrow := d.focus_row
  let fr := d.focus_row - 1
  let fr := if fr < 0 then (NUM_ROWS : Int) - 1 else fr
  let d := { d with focus_row := fr }
  if oldrow ≥ 0 then
    { d with focus_col := adjust_column d.focus_row oldrow d.focus_col }
  else d

def move_down (d : DriverData) : DriverData :=
  let oldrow := d.focus_row
  let fr := d.focus_row + 1
  let fr := if fr ≥ (NUM_ROWS : Int) then 0 else fr
  let d := { d with focus_row := fr }
  if oldrow ≥ 0 then
    { d with focus_col := adjust_column d.focus_row oldrow d.focus_col }
  else d

def handle_joy_axis (d : DriverData) (axis : Nat) (value : Int) : DriverData :=
  let d := activate_joypad d
  if axis = 0 then
    if value > 256 then move_right d
    else if value < -256 then move_left d
    else d
  else if axis = 1 then
    if value > 256 then move_down d
    else if value < -256 then move_up d
    else d
  else d

def SDL_HAT_UP : Nat := 1

def SDL_HAT_RIGHT : Nat := 2

def SDL_HAT_DOWN : Nat := 4

def SDL_HAT_LEFT : Nat := 8

def handle_joy_hat (d : DriverData) (pos : Nat) : DriverData :=
  let d := activate_joypad d
  if pos = SDL_HAT_RIGHT then move_right d
  else if pos = SDL_HAT_LEFT then move_left d
  else if pos = SDL_HAT_DOWN then move_down d
  else if pos = SDL_HAT_UP then move_up d
  else d

def SDL_PRESSED : Nat := 1

def handle_joy_button (files : Nat → Option TexFile) (ticks : Nat)
    (d : DriverData) (button state : Nat) : DriverData × List HostCall :=
  if d.focus_row < 0 then (d, [])
  else if state ≠ SDL_PRESSED then (d, [])
  else if button = 0 then
    activate_key files ticks d d.focus_row.toNat d.focus_col.toNat
  else if button = 1 then
    (d, [.sendKey SDL_SCANCODE_BACKSPACE])
  else (d, [])

/-! ## Initial state and event sequences -/

/-- `init_data` (the fields it assigns). -/
def init_data (d : DriverData) : DriverData :=
  { d with
    active_layout := 0,
    highlight_row := -1,
    focus_row := -1,
    text := [],
    input_scroll_x := 0,
    input_cursor_x := 0,
    should_stop_text_input := false }

/-- The state right after `Init`: `SDL_calloc` zeroes the struct, then
`init_data` runs. -/
def initialData : DriverData :=
  init_data
    { screen_width := 0, screen_height := 0, start_pan_y := 0,
      target_pan_y := 0, screen_pan_y := 0,
      input_panel_visible_height := 0,
      input_panel_start_visible_height := 0,
      input_panel_target_visible_height := 0,
      input_cursor_x := 0, input_scroll_x := 0,
      focus_row := 0, focus_col := 0,
      highlight_row := 0, highlight_col := 0,
      active_layout := 0, text := [],
      should_stop_text_input := false, visible_height := 0,
      input_cursor_start_ticks := 0, start_ticks := 0,
      start_visible_height := 0, target_visible_height := 0,
      animation_time := 0,
      layout_textures := List.replicate NUM_LAYOUTS emptyTexture }

/-- One input event as dispatched by `ProcessEvent` to the five
handlers, paired with the `SDL_GetTicks()` value current while it is
handled. -/
inductive KbdEvent where
  | click : Int → Int → KbdEvent
  | motion : Int → Int → KbdEvent
  | joyAxis : Nat → Int → KbdEvent
  | joyHat : Nat → KbdEvent
  | joyButton : Nat → Nat → KbdEvent
  deriving DecidableEq

def handle_event (files : Nat → Option TexFile) (ticks : Nat)
    (e : KbdEvent) (d : DriverData) : DriverData :=
  match e with
  | .click px py => (handle_click files ticks d px py).1
  | .motion px py => handle_motion d px py
  | .joyAxis axis value => handle_joy_axis d axis value
  | .joyHat pos => handle_joy_hat d pos
  | .joyButton button state => (handle_joy_button files ticks d button state).1

def run_events (files : Nat → Option TexFile) :
    List (KbdEvent × Nat) → DriverData → DriverData
  | [], d => d
  | (e, ticks) :: es, d => run_events files es (handle_event files ticks e d)

/-! ## Spec-side characterizations

These definitions follow the specification's own words and are used to
compare the code-derived functions above against the spec's claims
(refinement-style). -/

/-- Left edge x of key `c` of a row: start offset plus the pixel widths
(stored in units of 2 pixels) and spacing of all keys before it. -/
def leftEdge (br : ButtonRow) (c : Nat) : Int :=
  br.start_x + ((List.range c).map (fun i => (widthAt br i : Int) * 2 + br.spacing)).sum

/-- Horizontal center of key `c` (left edge plus half the 2-pixel-unit
width). -/
def centerX (br : ButtonRow) (c : Nat) : Int :=
  leftEdge br c + (widthAt br c : Int)

/-- Right edge x of key `c`, as the claim for vertical navigation words
it ("the departure key's right edge x coordinate"). -/
def rightEdgeX (br : ButtonRow) (c : Nat) : Int :=
  leftEdge br c + (widthAt br c : Int) * 2

/-- The destination-column rule as the spec words it: scan the
destination row's keys left-to-right and select the last key whose left
edge does not exceed the reference x, falling back to the first key if
no key qualifies. -/
def destColSpec (br : ButtonRow) (refx : Int) : Nat :=
  (((List.range br.num_keys).filter
      (fun c => decide (leftEdge br c ≤ refx))).getLast?).getD 0

/-- The glyph width a buffered KeyID contributes to the input cursor:
looked up in the texture of the entry's own recorded layout level. -/
def entryWidth (d : DriverData) (id : Nat) : Int :=
  (glyphWidth (texSlot d (key_id_to_pos id).1)
    (key_id_to_pos id).2.1 (key_id_to_pos id).2.2 : Int)

/-- Sum of the glyph widths of all buffered entries. -/
def sumWidths (d : DriverData) (ids : List Nat) : Int :=
  (ids.map (entryWidth d)).sum

/-- The `max_x` of `update_input_cursor`: the right limit of the visible
input window. -/
def window_max_x (d : DriverData) : Int :=
  d.screen_width - (INPUTBOX_SIDE_MARGIN + INPUTBOX_SIDE_PADDING) * 2 -
    INPUT_CURSOR_WIDTH

/-- The atlas for layout level `l` is present (the `texels` pointer is
non-NULL, so `lookup_layout_texture` returns it without loading). -/
def texLoaded (d : DriverData) (l : Nat) : Prop :=
  (texSlot d l).texels ≠ none

instance (d : DriverData) (l : Nat) : Decidable (texLoaded d l) := by
  unfold texLoaded
  infer_instance

/-- Modality invariant of claim C9: focus (pad mode) and highlight
(pointer mode) are never both set. -/
def Inv (d : DriverData) : Prop :=
  ¬(0 ≤ d.focus_row ∧ 0 ≤ d.highlight_row)

/-- Focus-validity invariant of claim C10: whenever the focus is set it
addresses an existing key. -/
def FocusOK (d : DriverData) : Prop :=
  0 ≤ d.focus_row →
    d.focus_row < (NUM_ROWS : Int) ∧ 0 ≤ d.focus_col ∧
      d.focus_col < numKeysI d.focus_row

/-! ## Concrete sample data for witnesses and counterexamples -/

/-- A file system with no `osk<i>.tex` files. -/
def noFiles : Nat → Option TexFile := fun _ => none

/-- A well-versioned atlas file whose texel payload is empty, i.e. far
shorter than the `gxTexBufferSize 8 8 = 32` bytes the decoder expects. -/
def shortFile : TexFile :=
  { version := 1, width := 8, height := 8,
    key_widths := List.replicate NUM_ROWS (List.replicate MAX_BUTTONS_PER_ROW 20),
    key_height := 10, payload := [] }

/-- A file system serving the truncated atlas file for every level. -/
def shortFiles : Nat → Option TexFile := fun _ => some shortFile

/-- An atlas with every glyph 20 pixels wide, already loaded. -/
def texAllTwenty : TextureData :=
  { width := 256, height := 200,
    key_widths := List.replicate NUM_ROWS (List.replicate MAX_BUTTONS_PER_ROW 20),
    key_height := 10, texels := some [0] }

/-- State for claim C5: one buffered key (20 px wide), scroll offset 5,
640 px screen, level-0 atlas loaded.  The recomputed cursor x is 20,
which is neither smaller than the scroll offset (5) nor beyond the
window limit (532). -/
def dScroll : DriverData :=
  { initialData with
    screen_width := 640,
    input_scroll_x := 5,
    input_panel_visible_height := 100,
    text := [key_id_from_pos 0 0 0],
    layout_textures := [texAllTwenty, emptyTexture, emptyTexture, emptyTexture] }

/-- State with the internal input panel visible and two buffered keys:
KeyID 0 = (level 0, row 0, col 0) = "1" and KeyID 160 = (level 3, row 1,
col 0) = "©". -/
def dPanel : DriverData :=
  { initialData with
    screen_width := 640,
    screen_height := 480,
    visible_height := KEYBOARD_HEIGHT,
    input_panel_visible_height := 220,
    text := [0, 160] }

/-- State with a full input buffer (MAX_INPUT_LEN entries). -/
def dFull : DriverData :=
  { initialData with
    screen_width := 640,
    screen_height := 480,
    visible_height := KEYBOARD_HEIGHT,
    input_panel_visible_height := 220,
    text := List.replicate MAX_INPUT_LEN 0 }

/-- State in pad mode with the focus on row 1, column 1. -/
def dFocus11 : DriverData :=
  { initialData with
    focus_row := 1, focus_col := 1 }

/-- State in pad mode with the focus on the default position (2, 4). -/
def dPad : DriverData :=
  { initialData with
    screen_width := 640,
    screen_height := 480,
    visible_height := KEYBOARD_HEIGHT,
    focus_row := 2, focus_col := 4 }

/-- The input-modality fields (focus and highlight positions) bundled
together, for frame lemmas stating that an operation leaves them
untouched. -/
def navState (d : DriverData) : Int × Int × Int × Int :=
  (d.focus_row, d.focus_col, d.highlight_row, d.highlight_col)

/-- Strict version of the focus invariant: the focus is set and
addresses an existing key (the state right after `activate_joypad`). -/
def FocusStrict (d : DriverData) : Prop :=
  0 ≤ d.focus_row ∧ d.focus_row < (NUM_ROWS : Int) ∧
    0 ≤ d.focus_col ∧ d.focus_col < numKeysI d.focus_row

/-! # Theorems -/

set_option maxRecDepth 4000 in
/-- C1: for every layout level `l < NUM_LAYOUTS`, row `r < NUM_ROWS` and
column `c < MAX_BUTTONS_PER_ROW`, decoding the KeyID produced by
`key_id_from_pos l r c` with `key_id_to_pos` yields exactly `(l, r, c)`,
and conversely every KeyID in the addressable range
`NUM_LAYOUTS * NUM_ROWS * MAX_BUTTONS_PER_ROW` is recovered by encoding
its decoding — so the encoding is a bijection between the valid triples
and the range and the round-trip is the identity. -/
theorem C1_keyid_roundtrip :
    (∀ (l : Fin NUM_LAYOUTS) (r : Fin NUM_ROWS) (c : Fin MAX_BUTTONS_PER_ROW),
      key_id_to_pos (key_id_from_pos l.val r.val c.val) = (l.val, r.val, c.val)) ∧
    (∀ id : Fin (NUM_LAYOUTS * NUM_ROWS * MAX_BUTTONS_PER_ROW),
      key_id_from_pos (key_id_to_pos id.val).1 (key_id_to_pos id.val).2.1
        (key_id_to_pos id.val).2.2 = id.val) := by
  decide

set_option maxRecDepth 4000 in
/-- C2 (failing input): a truncated atlas file with a valid version.
`load_texture` does fail on it, but it assigns the `texels` buffer before
the size check, so the failed slot is no longer absent: the first
`lookup_layout_texture` reports failure, while the second lookup of the
same level finds `texels` non-NULL and returns the partially loaded
atlas, contradicting the claim that every decode failure leaves the
level's atlas absent. -/
theorem C2_short_read_partial_atlas :
    (load_texture (some shortFile) emptyTexture).1 = false ∧
    (load_texture (some shortFile) emptyTexture).2.texels = some [] ∧
    gxTexBufferSize shortFile.width shortFile.height = 32 ∧
    (lookup_layout_texture shortFiles initialData 0).1 = none ∧
    (lookup_layout_texture shortFiles
        (lookup_layout_texture shortFiles initialData 0).2 0).1 =
      some (load_texture (some shortFile) emptyTexture).2 := by
  decide

/-- C3: activating a key resolving to the enter keycap while the internal
input panel is present sends exactly one text string per buffered
KeyReference — the i-th resolved from the i-th entry's own recorded
layout level, row and column — in buffer order, then sets the
stop-text-input flag and starts the hide transition (target heights 0,
exit animation started). -/
theorem C3_enter_commits_buffer (files : Nat → Option TexFile) (ticks : Nat)
    (d : DriverData) (row col : Nat)
    (hpanel : 0 < d.input_panel_visible_height)
    (hret : text_by_pos d row col = some KeySym.ret) :
    (activate_key files ticks d row col).2 =
      d.text.map (fun id => HostCall.sendText (resolveKeyId id)) ∧
    (activate_key files ticks d row col).2.length = d.text.length ∧
    (activate_key files ticks d row col).1.should_stop_text_input = true ∧
    (activate_key files ticks d row col).1.target_visible_height = 0 ∧
    (activate_key files ticks d row col).1.input_panel_target_visible_height = 0 ∧
    (activate_key files ticks d row col).1.animation_time = ANIMATION_TIME_EXIT := by
  simp [activate_key, hret, hpanel, send_input_text, HideScreenKeyboard]

/-- C3 witness: in the concrete state `dPanel` (internal panel visible,
buffer `[0, 160]`), activating the enter key at row 4, column 4 sends the
two resolved symbols in order and starts the hide transition. -/
theorem C3_enter_commits_buffer_witness :
    0 < dPanel.input_panel_visible_height ∧
    text_by_pos dPanel 4 4 = some KeySym.ret ∧
    ((activate_key noFiles 7 dPanel 4 4).2 =
        dPanel.text.map (fun id => HostCall.sendText (resolveKeyId id)) ∧
      (activate_key noFiles 7 dPanel 4 4).2.length = dPanel.text.length ∧
      (activate_key noFiles 7 dPanel 4 4).1.should_stop_text_input = true ∧
      (activate_key noFiles 7 dPanel 4 4).1.target_visible_height = 0 ∧
      (activate_key noFiles 7 dPanel 4 4).1.input_panel_target_visible_height = 0 ∧
      (activate_key noFiles 7 dPanel 4 4).1.animation_time = ANIMATION_TIME_EXIT) :=
  ⟨by decide, by decide,
    C3_enter_commits_buffer noFiles 7 dPanel 4 4 (by decide) (by decide)⟩

/-- C4: with the input panel present and the buffer already at
MAX_INPUT_LEN entries, activating a key resolving to a literal
(non-functional) symbol leaves the state — in particular the buffer
contents and length — completely unchanged and emits no host call. -/
theorem C4_full_buffer_drops_key (files : Nat → Option TexFile) (ticks : Nat)
    (d : DriverData) (row col : Nat) (s : String)
    (hpanel : 0 < d.input_panel_visible_height)
    (hfull : d.text.length = MAX_INPUT_LEN)
    (hlit : text_by_pos d row col = some (KeySym.lit s)) :
    activate_key files ticks d row col = (d, []) := by
  simp [activate_key, hlit, hpanel, hfull]

set_option maxRecDepth 4000 in
/-- C4 witness: in the concrete state `dFull` (128 buffered entries),
activating the literal "1" key at row 0, column 0 changes nothing and
emits nothing. -/
theorem C4_full_buffer_drops_key_witness :
    0 < dFull.input_panel_visible_height ∧
    dFull.text.length = MAX_INPUT_LEN ∧
    text_by_pos dFull 0 0 = some (KeySym.lit "1") ∧
    activate_key noFiles 7 dFull 0 0 = (dFull, []) :=
  ⟨by decide, by decide, by decide,
    C4_full_buffer_drops_key noFiles 7 dFull 0 0 "1" (by decide) (by decide)
      (by decide)⟩

/-- C7: activating a key resolving to the shift keycap sets the active
layout level to the C-boolean negation of the current one: from level 0
it switches to level 1, from level 1 back to level 0, and the result is
always level 0 or level 1 — never 2 or 3. -/
theorem C7_shift_toggles_levels (files : Nat → Option TexFile) (ticks : Nat)
    (d : DriverData) (row col : Nat)
    (hshift : text_by_pos d row col = some KeySym.shift) :
    ((activate_key files ticks d row col).1.active_layout = 0 ∨
      (activate_key files ticks d row col).1.active_layout = 1) ∧
    (d.active_layout = 0 → (activate_key files ticks d row col).1.active_layout = 1) ∧
    (d.active_layout = 1 → (activate_key files ticks d row col).1.active_layout = 0) ∧
    (activate_key files ticks d row col).1.active_layout ≠ 2 ∧
    (activate_key files ticks d row col).1.active_layout ≠ 3 := by
  simp only [activate_key, hshift]
  norm_num [switch_layout, cBoolNot]
  by_cases h0 : d.active_layout = 0 <;> simp [h0]

/-- C7 witness: from the initial state (level 0), activating the shift
key at row 3, column 0 switches to level 1. -/
theorem C7_shift_toggles_levels_witness :
    text_by_pos initialData 3 0 = some KeySym.shift ∧
    (activate_key noFiles 7 initialData 3 0).1.active_layout = 1 :=
  ⟨by decide,
    (C7_shift_toggles_levels noFiles 7 initialData 3 0 (by decide)).2.1 (by decide)⟩

/-! ## Helper lemmas: the cursor loop on fully loaded atlases -/

lemma lookup_layout_texture_loaded (files : Nat → Option TexFile)
    (d : DriverData) (l : Nat) (h : texLoaded d l) :
    lookup_layout_texture files d l = (some (texSlot d l), d) := by
  unfold texLoaded at h
  simp [lookup_layout_texture, h]

lemma cursor_loop_all_loaded (files : Nat → Option TexFile) (d : DriverData) :
    ∀ (ids : List Nat) (last : Int) (tex : Option TextureData) (x : Int),
      (∀ id ∈ ids, texLoaded d (key_id_to_pos id).1) →
      tex = (if 0 ≤ last then some (texSlot d last.toNat) else none) →
      cursor_loop files ids d last tex x = (d, x + sumWidths d ids) := by
  intro ids
  induction ids with
  | nil =>
    intro last tex x _ _
    simp [cursor_loop, sumWidths]
  | cons id rest ih =>
    intro last tex x hload htex
    have hl : texLoaded d (key_id_to_pos id).1 := hload id (by simp)
    have hrest : ∀ i ∈ rest, texLoaded d (key_id_to_pos i).1 :=
      fun i hi => hload i (by simp [hi])
    by_cases hne : ((key_id_to_pos id).1 : Int) ≠ last
    · simp only [cursor_loop]
      rw [if_pos hne, lookup_layout_texture_loaded files d _ hl]
      dsimp only
      rw [ih ((key_id_to_pos id).1 : Int) (some (texSlot d (key_id_to_pos id).1)) _
        hrest (by simp)]
      simp [sumWidths, entryWidth]
      ring
    · push_neg at hne
      simp only [cursor_loop]
      rw [if_neg (by simp [hne])]
      have h0 : (0 : Int) ≤ last := by omega
      have htex' : tex = some (texSlot d last.toNat) := by
        rw [htex, if_pos h0]
      rw [htex']
      rw [ih last (some (texSlot d last.toNat)) _ hrest (by simp [h0])]
      have hnat : last.toNat = (key_id_to_pos id).1 := by omega
      simp [sumWidths, entryWidth, hnat]
      ring

lemma update_input_cursor_loaded (files : Nat → Option TexFile) (ticks : Nat)
    (d : DriverData)
    (h : ∀ id ∈ d.text, texLoaded d (key_id_to_pos id).1) :
    (update_input_cursor files ticks d).input_cursor_x = sumWidths d d.text ∧
    (update_input_cursor files ticks d).input_scroll_x =
      (if sumWidths d d.text < d.input_scroll_x then sumWidths d d.text
       else if sumWidths d d.text > window_max_x d then
         sumWidths d d.text - window_max_x d
       else 0) := by
  unfold update_input_cursor
  rw [cursor_loop_all_loaded files d d.text (-1) none 0 h (by simp)]
  simp only [zero_add, window_max_x]
  split_ifs <;> simp

/-- C5 (counterexample): in state `dScroll` the recomputed cursor x is
20, which is neither smaller than the current scroll offset (5) nor
beyond the visible window limit (532), so the claim says the scroll
offset is left unchanged at 5 — but `update_input_cursor` resets it
to 0. -/
theorem C5_scroll_counterexample :
    dScroll.input_scroll_x = 5 ∧
    sumWidths dScroll dScroll.text = 20 ∧
    ¬(sumWidths dScroll dScroll.text < dScroll.input_scroll_x) ∧
    ¬(sumWidths dScroll dScroll.text > window_max_x dScroll) ∧
    (update_input_cursor noFiles 7 dScroll).input_scroll_x = 0 ∧
    (update_input_cursor noFiles 7 dScroll).input_scroll_x ≠
      dScroll.input_scroll_x := by
  decide

/-- C5 (amended): after a buffer edit, with every layout level occurring
in the buffer already loaded, `update_input_cursor` sets the cursor x to
the sum of the glyph widths of all buffer entries (each looked up via
the entry's own recorded layout level), and sets the scroll offset to
cursor x when cursor x is smaller than the current scroll offset,
otherwise to cursor x minus the visible window width when cursor x
exceeds the window limit, and otherwise resets it to zero (rather than
leaving it unchanged, as originally claimed). -/
theorem C5_cursor_scroll_recompute (files : Nat → Option TexFile) (ticks : Nat)
    (d : DriverData)
    (h : ∀ id ∈ d.text, texLoaded d (key_id_to_pos id).1) :
    (update_input_cursor files ticks d).input_cursor_x = sumWidths d d.text ∧
    (update_input_cursor files ticks d).input_scroll_x =
      (if sumWidths d d.text < d.input_scroll_x then sumWidths d d.text
       else if sumWidths d d.text > window_max_x d then
         sumWidths d d.text - window_max_x d
       else 0) :=
  update_input_cursor_loaded files ticks d h

/-- C5 witness: the amended recomputation evaluated in the concrete state
`dScroll` (cursor x 20, previous scroll 5, window limit 532: the scroll
offset is reset to 0). -/
theorem C5_cursor_scroll_recompute_witness :
    (∀ id ∈ dScroll.text, texLoaded dScroll (key_id_to_pos id).1) ∧
    ((update_input_cursor noFiles 7 dScroll).input_cursor_x =
        sumWidths dScroll dScroll.text ∧
      (update_input_cursor noFiles 7 dScroll).input_scroll_x =
        (if sumWidths dScroll dScroll.text < dScroll.input_scroll_x then
          sumWidths dScroll dScroll.text
         else if sumWidths dScroll dScroll.text > window_max_x dScroll then
          sumWidths dScroll dScroll.text - window_max_x dScroll
         else 0)) :=
  ⟨by decide, C5_cursor_scroll_recompute noFiles 7 dScroll (by decide)⟩

/-! ## Helper lemmas: column adjustment on the concrete layout table -/

lemma numKeys_bounds : ∀ r : Nat, r < NUM_ROWS →
    0 < (rowAt r).num_keys ∧ (rowAt r).num_keys ≤ MAX_BUTTONS_PER_ROW := by
  decide

lemma adjust_columnN_lt : ∀ nr : Nat, nr < NUM_ROWS → ∀ o : Nat, o < NUM_ROWS →
    ∀ oc : Nat, oc < MAX_BUTTONS_PER_ROW →
      adjust_columnN nr o oc < (rowAt nr).num_keys := by
  decide

lemma adjust_columnN_eq_destColSpec : ∀ nr : Nat, nr < NUM_ROWS →
    ∀ o : Nat, o < NUM_ROWS → ∀ oc : Nat, oc < MAX_BUTTONS_PER_ROW →
      oc < (rowAt o).num_keys →
      adjust_columnN nr o oc = destColSpec (rowAt nr) (centerX (rowAt o) oc) := by
  decide

/-- C6 (counterexample): moving down from row 1, column 1 (a 10-key
row) into row 2 (a 9-key row), the code lands on column 0, while the
claimed rule — last key of the destination row whose left edge does not
exceed the departure key's right edge — selects column 1: the code uses
the departure key's center, not its right edge. -/
theorem C6_right_edge_counterexample :
    dFocus11.focus_row = 1 ∧ dFocus11.focus_col = 1 ∧
    (move_down dFocus11).focus_row = 2 ∧
    (move_down dFocus11).focus_col = 0 ∧
    destColSpec (rowAt 2) (rightEdgeX (rowAt 1) 1) = 1 ∧
    (move_down dFocus11).focus_col ≠
      (destColSpec (rowAt 2) (rightEdgeX (rowAt 1) 1) : Int) := by
  decide

/-- C6 (amended): for every vertical focus move from a valid focus
position, the destination row is the current row minus/plus one wrapping
modulo NUM_ROWS, and the destination column is obtained by taking the
departure key's center x coordinate (not its right edge, as originally
claimed), scanning the destination row's keys left-to-right and
selecting the last key whose left edge does not exceed that x, falling
back to the first key if no key qualifies. -/
theorem C6_vertical_move (d : DriverData)
    (hr0 : 0 ≤ d.focus_row) (hr5 : d.focus_row < (NUM_ROWS : Int))
    (hc0 : 0 ≤ d.focus_col) (hcn : d.focus_col < numKeysI d.focus_row) :
    ((move_up d).focus_row = (d.focus_row - 1) % 5 ∧
      (move_up d).focus_col =
        (destColSpec (rowAt ((d.focus_row - 1) % 5).toNat)
          (centerX (rowAt d.focus_row.toNat) d.focus_col.toNat) : Int)) ∧
    ((move_down d).focus_row = (d.focus_row + 1) % 5 ∧
      (move_down d).focus_col =
        (destColSpec (rowAt ((d.focus_row + 1) % 5).toNat)
          (centerX (rowAt d.focus_row.toNat) d.focus_col.toNat) : Int)) := by
  have h5 : (NUM_ROWS : Int) = 5 := by norm_num [NUM_ROWS]
  rw [h5] at hr5
  have hnk10 : (rowAt d.focus_row.toNat).num_keys ≤ 10 :=
    (numKeys_bounds d.focus_row.toNat (by omega)).2
  have hcn' : d.focus_col < ((rowAt d.focus_row.toNat).num_keys : Int) := by
    unfold numKeysI at hcn
    exact hcn
  have hocnat : d.focus_col.toNat < (rowAt d.focus_row.toNat).num_keys := by
    omega
  have hoc10 : d.focus_col.toNat < MAX_BUTTONS_PER_ROW := by
    unfold MAX_BUTTONS_PER_ROW
    omega
  constructor
  · have hup : (if d.focus_row - 1 < 0 then (NUM_ROWS : Int) - 1
        else d.focus_row - 1) = (d.focus_row - 1) % 5 := by
      rw [h5]
      split_ifs <;> omega
    constructor
    · simp only [move_up, if_pos hr0]
      exact hup
    · simp only [move_up, if_pos hr0, hup, adjust_column]
      have := adjust_columnN_eq_destColSpec ((d.focus_row - 1) % 5).toNat
        (by omega) d.focus_row.toNat (by omega) d.focus_col.toNat hoc10 hocnat
      exact_mod_cast this
  · have hdown : (if d.focus_row + 1 ≥ (NUM_ROWS : Int) then 0
        else d.focus_row + 1) = (d.focus_row + 1) % 5 := by
      rw [h5]
      split_ifs <;> omega
    constructor
    · simp only [move_down, if_pos hr0]
      exact hdown
    · simp only [move_down, if_pos hr0, hdown, adjust_column]
      have := adjust_columnN_eq_destColSpec ((d.focus_row + 1) % 5).toNat
        (by omega) d.focus_row.toNat (by omega) d.focus_col.toNat hoc10 hocnat
      exact_mod_cast this

/-- C6 witness: the amended vertical-move rule evaluated at the concrete
focus position (1, 1): moving down lands on row 2, and on the column the
center-based rule selects. -/
theorem C6_vertical_move_witness :
    (0 ≤ dFocus11.focus_row ∧ dFocus11.focus_row < (NUM_ROWS : Int) ∧
      0 ≤ dFocus11.focus_col ∧ dFocus11.focus_col < numKeysI dFocus11.focus_row) ∧
    (move_down dFocus11).focus_row = (dFocus11.focus_row + 1) % 5 ∧
    (move_down dFocus11).focus_col =
      (destColSpec (rowAt ((dFocus11.focus_row + 1) % 5).toNat)
        (centerX (rowAt dFocus11.focus_row.toNat) dFocus11.focus_col.toNat) : Int) :=
  ⟨⟨by decide, by decide, by decide, by decide⟩,
    (C6_vertical_move dFocus11 (by decide) (by decide) (by decide) (by decide)).2⟩

/-! ## Helper lemmas: pointer-event handling -/

lemma key_at_activate_mouse (d : DriverData) (px py : Int) :
    key_at (activate_mouse d) px py = key_at d px py := rfl

lemma handle_motion_focus (d : DriverData) (px py : Int) :
    (handle_motion d px py).focus_row = -1 := by
  simp only [handle_motion, key_at_activate_mouse]
  cases h : key_at d px py with
  | none => simp [h, activate_mouse]
  | some rc =>
    obtain ⟨r, c⟩ := rc
    simp only [h]
    split_ifs <;> simp [activate_mouse]

lemma handle_motion_highlight (d : DriverData) (px py : Int) :
    (∀ r c, key_at d px py = some (r, c) →
      (handle_motion d px py).highlight_row = (r : Int) ∧
      (handle_motion d px py).highlight_col = (c : Int)) ∧
    (key_at d px py = none → (handle_motion d px py).highlight_row = -1) := by
  constructor
  · intro r c h
    simp only [handle_motion, key_at_activate_mouse, h]
    split_ifs with hch
    · simp
    · push_neg at hch
      simp only [activate_mouse] at hch ⊢
      exact hch
  · intro h
    simp only [handle_motion, key_at_activate_mouse, h]

/-- C8 (counterexample): in state `dPad` the focus is set (pad mode);
a pointer button-down event is then ignored entirely — the state is
returned unchanged with the focus still set — so a click does not force
pointer mode as claimed. -/
theorem C8_click_in_pad_mode_counterexample :
    dPad.focus_row = 2 ∧
    handle_click noFiles 7 dPad 100 400 = (dPad, []) ∧
    (handle_click noFiles 7 dPad 100 400).1.focus_row ≠ -1 := by
  decide

/-- C8 (amended): a pointer motion event always forces pointer mode —
afterwards the focus is unset (focus_row = -1) and the highlight is the
hovered key as computed by the hit test (or unset when no key is hit) —
while a pointer button-down is processed only when the focus is already
unset: a click arriving in pad mode (focus set) is ignored and leaves
the state, including the focus, unchanged. -/
theorem C8_pointer_events (files : Nat -> Option TexFile) (ticks : Nat)
    (d : DriverData) (px py : Int) :
    ((handle_motion d px py).focus_row = -1 ∧
      (∀ r c, key_at d px py = some (r, c) →
        (handle_motion d px py).highlight_row = (r : Int) ∧
        (handle_motion d px py).highlight_col = (c : Int)) ∧
      (key_at d px py = none → (handle_motion d px py).highlight_row = -1)) ∧
    (0 ≤ d.focus_row → handle_click files ticks d px py = (d, [])) := by
  refine ⟨⟨handle_motion_focus d px py, (handle_motion_highlight d px py).1,
    (handle_motion_highlight d px py).2⟩, ?_⟩
  intro h
  unfold handle_click
  rw [if_pos h]

/-- C8 witness: the amended statement evaluated at the concrete pad-mode
state `dPad`: a click at (100, 400) is ignored. -/
theorem C8_pointer_events_witness :
    0 ≤ dPad.focus_row ∧ handle_click noFiles 7 dPad 100 400 = (dPad, []) :=
  ⟨by decide, (C8_pointer_events noFiles 7 dPad 100 400).2 (by decide)⟩

/-! ## Helper lemmas: frame properties of the handlers

None of the buffer-side operations touch the focus/highlight fields;
these lemmas state that through `navState`. -/

lemma NUM_ROWS_int : (NUM_ROWS : Int) = 5 := rfl

lemma navState_lookup (files : Nat → Option TexFile) (d : DriverData) (l : Nat) :
    navState (lookup_layout_texture files d l).2 = navState d := by
  simp only [lookup_layout_texture]
  split
  · split <;> rfl
  · rfl

lemma navState_cursor_loop (files : Nat → Option TexFile) :
    ∀ (ids : List Nat) (d : DriverData) (last : Int) (tex : Option TextureData)
      (x : Int), navState (cursor_loop files ids d last tex x).1 = navState d := by
  intro ids
  induction ids with
  | nil => intro d last tex x; rfl
  | cons id rest ih =>
    intro d last tex x
    simp only [cursor_loop]
    split
    · split
      · rw [ih, navState_lookup]
      · rw [ih, navState_lookup]
    · exact ih d last tex _

lemma navState_update_input_cursor (files : Nat → Option TexFile) (ticks : Nat)
    (d : DriverData) :
    navState (update_input_cursor files ticks d) = navState d := by
  simp only [update_input_cursor]
  split_ifs <;>
    simpa [navState] using navState_cursor_loop files d.text d (-1) none 0

lemma navState_activate_key (files : Nat → Option TexFile) (ticks : Nat)
    (d : DriverData) (row col : Nat) :
    navState (activate_key files ticks d row col).1 = navState d := by
  simp only [activate_key]
  split_ifs <;>
    first
      | rfl
      | (rw [navState_update_input_cursor]
         all_goals rfl)

lemma navState_handle_click (files : Nat → Option TexFile) (ticks : Nat)
    (d : DriverData) (px py : Int) :
    navState (handle_click files ticks d px py).1 = navState d := by
  simp only [handle_click]
  split_ifs
  · rfl
  · rfl
  · split
    · exact navState_activate_key files ticks d _ _
    · rfl

lemma navState_handle_joy_button (files : Nat → Option TexFile) (ticks : Nat)
    (d : DriverData) (button state : Nat) :
    navState (handle_joy_button files ticks d button state).1 = navState d := by
  simp only [handle_joy_button]
  split_ifs <;> first | rfl | exact navState_activate_key files ticks d _ _

lemma Inv_of_navState (dnew dold : DriverData)
    (hn : navState dnew = navState dold) (h : Inv dold) : Inv dnew := by
  unfold Inv at *
  simp only [navState, Prod.mk.injEq] at hn
  obtain ⟨e1, _, e3, _⟩ := hn
  rw [e1, e3]
  exact h

lemma FocusOK_of_navState (dnew dold : DriverData)
    (hn : navState dnew = navState dold) (h : FocusOK dold) : FocusOK dnew := by
  unfold FocusOK at *
  simp only [navState, Prod.mk.injEq] at hn
  obtain ⟨e1, e2, _, _⟩ := hn
  rw [e1, e2]
  exact h

/-! ## Helper lemmas: directional moves keep the focus on an existing key -/

lemma FocusStrict_toNat_bounds (d : DriverData) (h : FocusStrict d) :
    d.focus_row.toNat < NUM_ROWS ∧
    d.focus_col.toNat < (rowAt d.focus_row.toNat).num_keys ∧
    d.focus_col.toNat < MAX_BUTTONS_PER_ROW := by
  obtain ⟨h0, h5, hc0, hcn⟩ := h
  rw [NUM_ROWS_int] at h5
  unfold numKeysI at hcn
  have h10 := (numKeys_bounds d.focus_row.toNat (by unfold NUM_ROWS; omega)).2
  unfold NUM_ROWS MAX_BUTTONS_PER_ROW at *
  omega

lemma move_right_strict (d : DriverData) (h : FocusStrict d) :
    FocusStrict (move_right d) := by
  have hpos := (numKeys_bounds d.focus_row.toNat
    ((FocusStrict_toNat_bounds d h).1)).1
  obtain ⟨h0, h5, hc0, hcn⟩ := h
  unfold numKeysI at *
  simp only [move_right, FocusStrict, numKeysI]
  refine ⟨h0, h5, ?_, ?_⟩ <;> (split_ifs <;> omega)

lemma move_left_strict (d : DriverData) (h : FocusStrict d) :
    FocusStrict (move_left d) := by
  have hpos := (numKeys_bounds d.focus_row.toNat
    ((FocusStrict_toNat_bounds d h).1)).1
  obtain ⟨h0, h5, hc0, hcn⟩ := h
  unfold numKeysI at *
  simp only [move_left, FocusStrict, numKeysI]
  refine ⟨h0, h5, ?_, ?_⟩ <;> (split_ifs <;> omega)

lemma move_up_strict (d : DriverData) (h : FocusStrict d) :
    FocusStrict (move_up d) := by
  obtain ⟨hrow5, hoc, hoc10⟩ := FocusStrict_toNat_bounds d h
  obtain ⟨h0, h5, hc0, hcn⟩ := h
  rw [NUM_ROWS_int] at h5
  simp only [move_up, if_pos h0]
  set fr : Int := if d.focus_row - 1 < 0 then (NUM_ROWS : Int) - 1
    else d.focus_row - 1 with hfr
  have hfr5 : 0 ≤ fr ∧ fr < 5 := by
    rw [hfr, NUM_ROWS_int]
    split_ifs <;> omega
  have hlt := adjust_columnN_lt fr.toNat (by unfold NUM_ROWS; omega)
    d.focus_row.toNat hrow5 d.focus_col.toNat hoc10
  unfold FocusStrict numKeysI adjust_column
  simp only []
  rw [NUM_ROWS_int]
  refine ⟨hfr5.1, hfr5.2, by omega, by omega⟩

lemma move_down_strict (d : DriverData) (h : FocusStrict d) :
    FocusStrict (move_down d) := by
  obtain ⟨hrow5, hoc, hoc10⟩ := FocusStrict_toNat_bounds d h
  obtain ⟨h0, h5, hc0, hcn⟩ := h
  rw [NUM_ROWS_int] at h5
  simp only [move_down, if_pos h0]
  set fr : Int := if d.focus_row + 1 ≥ (NUM_ROWS : Int) then 0
    else d.focus_row + 1 with hfr
  have hfr5 : 0 ≤ fr ∧ fr < 5 := by
    rw [hfr, NUM_ROWS_int]
    split_ifs <;> omega
  have hlt := adjust_columnN_lt fr.toNat (by unfold NUM_ROWS; omega)
    d.focus_row.toNat hrow5 d.focus_col.toNat hoc10
  unfold FocusStrict numKeysI adjust_column
  simp only []
  rw [NUM_ROWS_int]
  refine ⟨hfr5.1, hfr5.2, by omega, by omega⟩

lemma moves_highlight (d : DriverData) :
    (move_left d).highlight_row = d.highlight_row ∧
    (move_right d).highlight_row = d.highlight_row ∧
    (move_up d).highlight_row = d.highlight_row ∧
    (move_down d).highlight_row = d.highlight_row := by
  refine ⟨rfl, rfl, ?_, ?_⟩ <;>
    (first | (simp only [move_up]; split <;> rfl)
           | (simp only [move_down]; split <;> rfl))

lemma activate_joypad_strict (d : DriverData) (h : FocusOK d) :
    FocusStrict (activate_joypad d) ∧ (activate_joypad d).highlight_row = -1 := by
  unfold activate_joypad
  by_cases hf : d.focus_row < 0
  · simp only [if_pos hf]
    constructor
    · refine ⟨?_, ?_, ?_, ?_⟩
      · show (0 : Int) ≤ 2
        decide
      · show (2 : Int) < (NUM_ROWS : Int)
        decide
      · show (0 : Int) ≤ numKeysI 2 / 2
        decide
      · show numKeysI 2 / 2 < numKeysI 2
        decide
    · trivial
  · simp only [if_neg hf]
    constructor
    · have hb := h (by omega)
      refine ⟨?_, hb.1, hb.2.1, hb.2.2⟩
      show (0 : Int) ≤ d.focus_row
      omega
    · trivial

lemma activate_joypad_highlight (d : DriverData) :
    (activate_joypad d).highlight_row = -1 := rfl

lemma handle_joy_axis_highlight (d : DriverData) (axis : Nat) (value : Int) :
    (handle_joy_axis d axis value).highlight_row = -1 := by
  unfold handle_joy_axis
  split_ifs <;>
    first
      | exact activate_joypad_highlight d
      | exact ((moves_highlight (activate_joypad d)).2.1).trans
          (activate_joypad_highlight d)
      | exact ((moves_highlight (activate_joypad d)).1).trans
          (activate_joypad_highlight d)
      | exact ((moves_highlight (activate_joypad d)).2.2.1).trans
          (activate_joypad_highlight d)
      | exact ((moves_highlight (activate_joypad d)).2.2.2).trans
          (activate_joypad_highlight d)

lemma handle_joy_hat_highlight (d : DriverData) (pos : Nat) :
    (handle_joy_hat d pos).highlight_row = -1 := by
  unfold handle_joy_hat
  split_ifs <;>
    first
      | exact activate_joypad_highlight d
      | exact ((moves_highlight (activate_joypad d)).2.1).trans
          (activate_joypad_highlight d)
      | exact ((moves_highlight (activate_joypad d)).1).trans
          (activate_joypad_highlight d)
      | exact ((moves_highlight (activate_joypad d)).2.2.1).trans
          (activate_joypad_highlight d)
      | exact ((moves_highlight (activate_joypad d)).2.2.2).trans
          (activate_joypad_highlight d)

lemma handle_joy_axis_strict (d : DriverData) (axis : Nat) (value : Int)
    (h : FocusOK d) : FocusStrict (handle_joy_axis d axis value) := by
  have hstrict := (activate_joypad_strict d h).1
  unfold handle_joy_axis
  split_ifs <;>
    first
      | exact hstrict
      | exact move_right_strict _ hstrict
      | exact move_left_strict _ hstrict
      | exact move_down_strict _ hstrict
      | exact move_up_strict _ hstrict

lemma handle_joy_hat_strict (d : DriverData) (pos : Nat)
    (h : FocusOK d) : FocusStrict (handle_joy_hat d pos) := by
  have hstrict := (activate_joypad_strict d h).1
  unfold handle_joy_hat
  split_ifs <;>
    first
      | exact hstrict
      | exact move_right_strict _ hstrict
      | exact move_left_strict _ hstrict
      | exact move_down_strict _ hstrict
      | exact move_up_strict _ hstrict

lemma handle_event_Inv (files : Nat → Option TexFile) (ticks : Nat)
    (e : KbdEvent) (d : DriverData) (h : Inv d) :
    Inv (handle_event files ticks e d) := by
  cases e with
  | click px py =>
    exact Inv_of_navState _ _ (navState_handle_click files ticks d px py) h
  | motion px py =>
    intro hc
    simp only [handle_event] at hc
    rw [handle_motion_focus] at hc
    exact absurd hc.1 (by norm_num)
  | joyAxis axis value =>
    intro hc
    simp only [handle_event] at hc
    rw [handle_joy_axis_highlight] at hc
    exact absurd hc.2 (by norm_num)
  | joyHat pos =>
    intro hc
    simp only [handle_event] at hc
    rw [handle_joy_hat_highlight] at hc
    exact absurd hc.2 (by norm_num)
  | joyButton button state =>
    exact Inv_of_navState _ _
      (navState_handle_joy_button files ticks d button state) h

lemma handle_event_FocusOK (files : Nat → Option TexFile) (ticks : Nat)
    (e : KbdEvent) (d : DriverData) (h : FocusOK d) :
    FocusOK (handle_event files ticks e d) := by
  cases e with
  | click px py =>
    exact FocusOK_of_navState _ _ (navState_handle_click files ticks d px py) h
  | motion px py =>
    intro h0
    simp only [handle_event] at h0
    rw [handle_motion_focus] at h0
    exact absurd h0 (by norm_num)
  | joyAxis axis value =>
    have hs := handle_joy_axis_strict d axis value h
    exact fun _ => ⟨hs.2.1, hs.2.2.1, hs.2.2.2⟩
  | joyHat pos =>
    have hs := handle_joy_hat_strict d pos h
    exact fun _ => ⟨hs.2.1, hs.2.2.1, hs.2.2.2⟩
  | joyButton button state =>
    exact FocusOK_of_navState _ _
      (navState_handle_joy_button files ticks d button state) h

lemma run_events_Inv (files : Nat → Option TexFile) :
    ∀ (evs : List (KbdEvent × Nat)) (d : DriverData), Inv d →
      Inv (run_events files evs d) := by
  intro evs
  induction evs with
  | nil => exact fun d h => h
  | cons ev rest ih =>
    intro d h
    exact ih _ (handle_event_Inv files ev.2 ev.1 d h)

lemma run_events_FocusOK (files : Nat → Option TexFile) :
    ∀ (evs : List (KbdEvent × Nat)) (d : DriverData), FocusOK d →
      FocusOK (run_events files evs d) := by
  intro evs
  induction evs with
  | nil => exact fun d h => h
  | cons ev rest ih =>
    intro d h
    exact ih _ (handle_event_FocusOK files ev.2 ev.1 d h)

/-- C9: in every state reachable from the initial state through any
sequence of event-handler invocations (click, motion, joystick axis,
joystick hat, joystick button), the focus position and the highlight
position are never both set. -/
theorem C9_focus_highlight_exclusive :
    ∀ (files : Nat → Option TexFile) (evs : List (KbdEvent × Nat)),
      ¬(0 ≤ (run_events files evs initialData).focus_row ∧
        0 ≤ (run_events files evs initialData).highlight_row) :=
  fun files evs =>
    run_events_Inv files evs initialData (by unfold Inv; decide)

/-- C9 witness: the exclusion evaluated after a concrete event sequence
(a motion followed by a joystick hat press). -/
theorem C9_focus_highlight_exclusive_witness :
    ¬(0 ≤ (run_events noFiles
        [(KbdEvent.motion 100 100, 3), (KbdEvent.joyHat SDL_HAT_UP, 5)]
        initialData).focus_row ∧
      0 ≤ (run_events noFiles
        [(KbdEvent.motion 100 100, 3), (KbdEvent.joyHat SDL_HAT_UP, 5)]
        initialData).highlight_row) :=
  C9_focus_highlight_exclusive noFiles
    [(KbdEvent.motion 100 100, 3), (KbdEvent.joyHat SDL_HAT_UP, 5)]

/-- C10: in every state reachable from the initial state through the
event handlers, whenever the focus is set it addresses an existing key
(row below NUM_ROWS, column within the row's key count); moreover
entering pad mode from any state satisfying the invariant yields a valid
focus, and each of the four directional moves preserves validity. -/
theorem C10_focus_in_bounds :
    (∀ (files : Nat → Option TexFile) (evs : List (KbdEvent × Nat)),
      FocusOK (run_events files evs initialData)) ∧
    (∀ d : DriverData, FocusOK d → FocusStrict (activate_joypad d)) ∧
    (∀ d : DriverData, FocusStrict d →
      FocusStrict (move_left d) ∧ FocusStrict (move_right d) ∧
      FocusStrict (move_up d) ∧ FocusStrict (move_down d)) :=
  ⟨fun files evs =>
      run_events_FocusOK files evs initialData (by unfold FocusOK; decide),
    fun d h => (activate_joypad_strict d h).1,
    fun d h =>
      ⟨move_left_strict d h, move_right_strict d h, move_up_strict d h,
        move_down_strict d h⟩⟩

/-- C10 witness: focus validity after a concrete event sequence, and the
pad-mode entry and an upward move evaluated at the concrete state
`dPad`. -/
theorem C10_focus_in_bounds_witness :
    FocusOK (run_events noFiles [(KbdEvent.joyHat SDL_HAT_UP, 3)] initialData) ∧
    (FocusOK dPad ∧ FocusStrict (activate_joypad dPad)) ∧
    (FocusStrict dPad ∧ FocusStrict (move_up dPad)) :=
  ⟨C10_focus_in_bounds.1 noFiles [(KbdEvent.joyHat SDL_HAT_UP, 3)],
    ⟨by unfold FocusOK; decide,
      C10_focus_in_bounds.2.1 dPad (by unfold FocusOK; decide)⟩,
    ⟨by unfold FocusStrict numKeysI; decide,
      (C10_focus_in_bounds.2.2 dPad
        (by unfold FocusStrict numKeysI; decide)).2.2.1⟩⟩

end OgcKbd
